import Mathlib

/-!
Verification of the zk-shroud-arena backend core against its specification.

The development shallowly embeds the Rust sources of the backend:
`zk/fixed_point_decimal.rs` (signed-magnitude fixed-point decimals over the
BN254 scalar field), `zk/circuit.rs` (native and in-circuit point-in-polygon
predicate and Poseidon polygon commitment), `api/prove.rs` and `api/verify.rs`
(the HTTP handlers' pure data flow), `main.rs` and `keys.rs` (key lifecycle).

External collaborators (the Poseidon permutation of ark-crypto-primitives,
Groth16, base64, H3) are abstracted as parameters, exactly as the spec lists
them as given.  In-circuit gadgets are embedded at value level: every
constraint-variable operation is represented by the function it computes on
the assigned values.
-/

namespace ZkShroud

/-- The BN254 scalar-field modulus (the `Fr` prime of arkworks' `ark_bn254`). -/
abbrev FR_MODULUS : ℕ :=
  21888242871839275222246405745257275088548364400416034343698204186575808495617

/-- The scalar field `Fr`, embedded as the integers mod the BN254 prime. -/
abbrev F : Type := ZMod FR_MODULUS

/-- `CIRCUIT_MAX_VERTICES` from `zk/circuit.rs`. -/
def CIRCUIT_MAX_VERTICES : ℕ := 6

/-- `CIRCUIT_MAX_POLYGON_HASHES` from `zk/circuit.rs`. -/
def CIRCUIT_MAX_POLYGON_HASHES : ℕ := 1024

/-! ## Fixed-point signed-magnitude decimals (`zk/fixed_point_decimal.rs`) -/

/-- `Dec`: a field-encoded magnitude `val` and a sign bit `neg`
(`zk/fixed_point_decimal.rs`).  The compile-time precision parameter is a
phantom there and is dropped here. -/
structure Dec where
  val : F
  neg : Bool
deriving DecidableEq

/-- The canonical zero decimal (`val = 0`, `neg = false`). -/
def dec_zero : Dec := { val := 0, neg := false }

/-- `Dec::u128_from_field_element`: the low 128 bits of the canonical
big-integer representative (limbs `lo | hi << 64`). -/
def u128_from_field_element (f : F) : ℕ := f.val % 2 ^ 128

/-- `Dec::signed_add_u128`: signed-magnitude addition on `u128` magnitudes;
equal signs saturate at `u128::MAX = 2^128 - 1`, unequal signs subtract the
smaller magnitude from the larger and keep the larger's sign. -/
def signed_add_u128 (aNeg : Bool) (aMag : ℕ) (bNeg : Bool) (bMag : ℕ) :
    Bool × ℕ :=
  if aNeg == bNeg then
    (aNeg, min (aMag + bMag) (2 ^ 128 - 1))
  else
    if bMag ≤ aMag then (aNeg, aMag - bMag) else (bNeg, bMag - aMag)

/-- `Dec::add`: convert both magnitudes to `u128`, add with
`signed_add_u128`, then canonicalise the sign of a zero result. -/
def Dec.add (a b : Dec) : Dec :=
  let aU := u128_from_field_element a.val
  let bU := u128_from_field_element b.val
  let r := signed_add_u128 a.neg aU b.neg bU
  { val := (r.2 : F), neg := if r.2 = 0 then false else r.1 }

/-- The sign-flipped operand built inline by `Dec::sub`: the sign is flipped
unless the magnitude is the field zero. -/
def dec_negate (b : Dec) : Dec :=
  { val := b.val, neg := if b.val = 0 then false else !b.neg }

/-- `Dec::sub`: addition of the sign-flipped right operand. -/
def Dec.sub (a b : Dec) : Dec := a.add (dec_negate b)

/-- `Dec::mul_unscaled`: field product of the magnitudes, XOR of the signs,
canonicalised to `neg = false` when the product is zero. -/
def Dec.mul_unscaled (a b : Dec) : Dec :=
  let v := a.val * b.val
  { val := v, neg := if v = 0 then false else xor a.neg b.neg }

/-- `comp_dec_less_than` (`zk/circuit.rs`): the native four-case comparison
`l < r`; magnitudes compare as canonical big-integer representatives (the
`Ord` on arkworks field elements). -/
def comp_dec_less_than (l r : Dec) : Bool :=
  if l.neg && !r.neg then true
  else if !l.neg && r.neg then false
  else if !l.neg && !r.neg then decide (l.val.val < r.val.val)
  else decide (r.val.val < l.val.val)

/-! ## 2D points (`zk/point_2d.rs`) -/

/-- `Point2DDec`: an ordered pair of decimals. -/
structure Point2DDec where
  x : Dec
  y : Dec
deriving DecidableEq

/-- The all-zero point, the content of unused polygon slots. -/
def point_zero : Point2DDec := { x := dec_zero, y := dec_zero }

/-- Index into a fixed six-slot polygon buffer; all source indices are
reduced mod `num_vertices` or `MAX_VERTICES` before use, so indices are
always in range and the wrap here is never exercised beyond it. -/
def pget (poly : Fin 6 → Point2DDec) (j : ℕ) : Point2DDec :=
  poly ⟨j % 6, Nat.mod_lt _ (by norm_num)⟩

/-! ## Native point-in-polygon predicate (`zk/circuit.rs`) -/

/-- The signed cross product `d_j = (x2-x1)*(py-y1) - (y2-y1)*(px-x1)` of one
polygon edge against the queried point, computed with `Dec.sub` and
`Dec.mul_unscaled` in source order. -/
def cross_d (pt cur nxt : Point2DDec) : Dec :=
  let x2_x1 := nxt.x.sub cur.x
  let py_y1 := pt.y.sub cur.y
  let y2_y1 := nxt.y.sub cur.y
  let px_x1 := pt.x.sub cur.x
  (x2_x1.mul_unscaled py_y1).sub (y2_y1.mul_unscaled px_x1)

/-- `is_point_in_polygon` (`zk/circuit.rs`): false for fewer than three
vertices, otherwise true iff no edge's cross product is strictly negative;
the edge after vertex `i` ends at vertex `(i+1) % num_vertices`. -/
def is_point_in_polygon (pt : Point2DDec) (poly : Fin 6 → Point2DDec)
    (num_vertices : ℕ) : Bool :=
  if num_vertices < 3 then false
  else
    let outside_count := (List.range num_vertices).countP fun i =>
      comp_dec_less_than
        (cross_d pt (pget poly i) (pget poly ((i + 1) % num_vertices)))
        dec_zero
    outside_count == 0

/-! ## In-circuit gadgets at value level

`DecVar` holds an `FpVar` magnitude and a `Boolean` sign; on a satisfied
assignment each gadget computes a function of the assigned values, and those
functions are what we embed.  `FpVar::is_cmp_unchecked` compares the
canonical representatives of its operands (its value is the comparison
outcome whenever both operands lie in the unchecked range, which holds for
every use below). -/

/-- Value semantics of `DecVar::add` (`zk/fixed_point_decimal.rs`): form
`s1*val_a + s2*val_b` with `s_i ∈ {1, -1}` chosen by the sign bits, read the
top bit of the 254-bit low-endian decomposition of the result as the new
sign, and conditionally negate to recover the magnitude. -/
def decvar_add (a b : Dec) : Dec :=
  let s1 : F := if a.neg then -1 else 1
  let s2 : F := if b.neg then -1 else 1
  let sum_val := a.val * s1 + b.val * s2
  let final_sign_bit := decide (2 ^ 253 ≤ sum_val.val)
  { val := if final_sign_bit then -sum_val else sum_val
    neg := final_sign_bit }

/-- Modelled from the spec: `DecVar::sub` is absent from the provided
sources (only its callers in `zk/circuit.rs` are); per the spec §4.1,
"Subtraction reuses addition with a sign-flipped operand". -/
def decvar_sub (a b : Dec) : Dec :=
  decvar_add a { val := b.val, neg := !b.neg }

/-- Modelled from the spec: `DecVar::mul_unscaled` is absent from the
provided sources; per the spec §4.1, "Multiplication multiplies the two
field variables and XORs the sign bits; zero-canonicalisation is not
enforced in-circuit". -/
def decvar_mul_unscaled (a b : Dec) : Dec :=
  { val := a.val * b.val, neg := xor a.neg b.neg }

/-- Value semantics of `comp_dec_less_than_gadget` (`zk/circuit.rs`): the
disjunction of the negative-positive case and the two same-sign magnitude
comparisons. -/
def comp_dec_less_than_gadget_val (l r : Dec) : Bool :=
  let case1 := l.neg && !r.neg
  let case3 := (!l.neg && !r.neg) && decide (l.val.val < r.val.val)
  let case4 := (l.neg && r.neg) && decide (r.val.val < l.val.val)
  case1 || case3 || case4

/-- The cross product of `is_point_in_polygon_gadget`, computed with the
in-circuit `sub` and `mul_unscaled` in source order. -/
def cross_d_gadget (pt cur nxt : Point2DDec) : Dec :=
  let x2_x1 := decvar_sub nxt.x cur.x
  let py_y1 := decvar_sub pt.y cur.y
  let y2_y1 := decvar_sub nxt.y cur.y
  let px_x1 := decvar_sub pt.x cur.x
  decvar_sub (decvar_mul_unscaled x2_x1 py_y1) (decvar_mul_unscaled y2_y1 px_x1)

/-- Value semantics of `is_point_in_polygon_gadget` (`zk/circuit.rs`): loop
over all `MAX_VERTICES` slots, guard each slot by `i < num_vertices`, count
strictly-negative cross products, and conjoin the vertex-count gate with the
zero test on the counter.  Faithful to source: the next vertex is slot
`(i + 1) % MAX_VERTICES`, and the gate is
`num_vertices.is_cmp_unchecked(3, Greater, false)`, i.e. `n > 3`. -/
def is_point_in_polygon_gadget_val (pt : Point2DDec)
    (poly : Fin 6 → Point2DDec) (num_vertices : F) : Bool :=
  let outside_count : F := (List.range 6).foldl
    (fun acc i =>
      let active_i := decide (((i : ℕ) : F).val < num_vertices.val)
      let d_j := cross_d_gadget pt (pget poly i) (pget poly ((i + 1) % 6))
      let is_outside := comp_dec_less_than_gadget_val d_j dec_zero
      acc + (if active_i && is_outside then (1 : F) else 0)) 0
  let valid_n := decide (3 < num_vertices.val)
  valid_n && decide (outside_count = 0)

/-! ## Polygon commitment (`zk/circuit.rs`)

The Poseidon sponge itself lives in ark-crypto-primitives, an external
collaborator per the spec; the repository code only drives it through
`new`, `absorb`, and `squeeze_field_elements(1)[0]`.  We therefore
parameterise over an abstract sponge: a state type, the state
`PoseidonSponge::new(cfg)` yields, the absorption step, and the first
squeezed element.  The in-circuit `PoseidonSpongeVar` computes the same
function on assigned values as the native sponge, so both sides share one
sponge parameter. -/

/-- An abstract sponge: initial state (for the shared Poseidon config),
one-element absorption, and the first squeezed field element. -/
structure SpongeModel (S : Type) where
  init : S
  absorb : S → F → S
  squeeze : S → F

/-- The field encoding of a sign bit absorbed by the hasher
(`if neg { F::one() } else { F::zero() }`). -/
def bool_to_f (b : Bool) : F := if b then 1 else 0

/-- Absorb the four-tuple of one active polygon slot. -/
def absorb_slot {S : Type} (sp : SpongeModel S) (st : S) (v : Point2DDec) : S :=
  sp.absorb (sp.absorb (sp.absorb (sp.absorb st v.x.val) (bool_to_f v.x.neg))
    v.y.val) (bool_to_f v.y.neg)

/-- `hash_polygon` (`zk/circuit.rs`): absorb `num_vertices`, then for each of
the `MAX_VERTICES` slots either the slot's four-tuple (if `i <
num_vertices`) or four field zeros, then squeeze one element. -/
def hash_polygon {S : Type} (sp : SpongeModel S) (poly : Fin 6 → Point2DDec)
    (num_vertices : ℕ) : F :=
  let st := sp.absorb sp.init ((num_vertices : ℕ) : F)
  let st := (List.range 6).foldl
    (fun st i =>
      if i < num_vertices then absorb_slot sp st (pget poly i)
      else sp.absorb (sp.absorb (sp.absorb (sp.absorb st 0) 0) 0) 0) st
  sp.squeeze st

/-- Value semantics of `hash_polygon_gadget` (`zk/circuit.rs`): absorb the
`num_vertices` variable, then for each slot the four-tuple multiplied by the
active flag `1{i < num_vertices}`, then squeeze one element. -/
def hash_polygon_gadget_val {S : Type} (sp : SpongeModel S)
    (poly : Fin 6 → Point2DDec) (num_vertices : F) : F :=
  let st := sp.absorb sp.init num_vertices
  let st := (List.range 6).foldl
    (fun st i =>
      let active_i := decide (((i : ℕ) : F).val < num_vertices.val)
      let flag_f : F := if active_i then 1 else 0
      let v := pget poly i
      sp.absorb (sp.absorb (sp.absorb (sp.absorb st (v.x.val * flag_f))
        (bool_to_f v.x.neg * flag_f)) (v.y.val * flag_f))
        (bool_to_f v.y.neg * flag_f)) st
  sp.squeeze st

/-! ## The `/prove` handler's flag and public inputs (`api/prove.rs`)

H3 cell parsing (`CellIndex::from_str`), the boundary extraction, and the
Mercator projection are external collaborators; the per-entry pipeline
"parse, drop failures, hash the projected boundary" is abstracted into a
parse function and a per-cell commitment function. -/

/-- `hash_map_cells` (`api/prove.rs`): parse every entry, silently dropping
failures, and hash each parsed cell's boundary. -/
def hash_map_cells {C : Type} (parse_cell : String → Option C)
    (boundary_hash : C → F) (h3_cells : List String) : List F :=
  (h3_cells.filterMap parse_cell).map boundary_hash

/-- The public-input hash array of `prove` (`api/prove.rs`): an all-zero
array of `MAX_HASHES` slots overwritten by the first `MAX_HASHES` computed
hashes, read back as a list. -/
def pub_hash_arr (map_hashes : List F) : List F :=
  map_hashes.take 1024 ++ List.replicate (1024 - (map_hashes.take 1024).length) 0

/-- The flag and public-input computation of the `prove` handler
(`api/prove.rs` steps 3, 4 and 6): `hash_match` is `any` over the full
`map_hashes` list, `final_flag = inside_poly && hash_match`, and the
response's public inputs are the flag followed by the truncated hash
array. -/
def prove_flag_publics {C : Type} (parse_cell : String → Option C)
    (boundary_hash : C → F) (cell_hash : F) (inside_poly : Bool)
    (h3_map : List String) : Bool × List F :=
  let map_hashes := hash_map_cells parse_cell boundary_hash h3_map
  let hash_match := map_hashes.any fun h => h == cell_hash
  let final_flag := inside_poly && hash_match
  (final_flag,
    (if final_flag then (1 : F) else 0) :: pub_hash_arr map_hashes)

/-! ## The `/verify` handler (`api/verify.rs`)

Base64 decoding plus group/field deserialisation are external; each decoder
is one abstract fallible function.  The Groth16 verifier
(`verify_with_processed_vk`) is an abstract function from the public-input
vector and the proof to `Except`. -/

/-- The two HTTP outcomes of the `verify` handler: a 400 bad-request reply
(from a failed decode) or a 200 JSON reply with the `ok` flag and an
optional `err_msg`. -/
inductive HttpOut where
  | bad_request (msg : String)
  | ok_json (ok : Bool) (err_msg : Option String)
deriving DecidableEq

/-- The base64 proof triple of a verify request. -/
structure ProofB64 where
  a : String
  b : String
  c : String

/-- `VerifyRequest` (`api/verify.rs`). -/
structure VerifyReq where
  proof : ProofB64
  public_inputs : List String

/-- The sequential decode loop over the public-input strings: the first
failure aborts with its error, otherwise all decoded elements are kept in
order. -/
def decode_all {E A : Type} (dec : String → Except E A) :
    List String → Except E (List A)
  | [] => .ok []
  | s :: rest =>
    match dec s with
    | .error e => .error e
    | .ok a =>
      match decode_all dec rest with
      | .error e => .error e
      | .ok l => .ok (a :: l)

/-- `verify` (`api/verify.rs`): decode `a`, `b`, `c` and every public-input
entry (any failure is a 400), forward the decoded vector — of whatever
length — to the Groth16 verifier, and answer 200 with `ok` on success or
with `ok = false` plus an error message on a verifier error. -/
def verify_handler {G1 G2 : Type} (dec_g1 : String → Except String G1)
    (dec_g2 : String → Except String G2) (dec_fr : String → Except String F)
    (verifier : List F → G1 × G2 × G1 → Except String Bool)
    (req : VerifyReq) : HttpOut :=
  match dec_g1 req.proof.a with
  | .error e => .bad_request e
  | .ok pa =>
    match dec_g2 req.proof.b with
    | .error e => .bad_request e
    | .ok pb =>
      match dec_g1 req.proof.c with
      | .error e => .bad_request e
      | .ok pc =>
        match decode_all dec_fr req.public_inputs with
        | .error e => .bad_request e
        | .ok pis =>
          match verifier pis (pa, pb, pc) with
          | .ok b => .ok_json b none
          | .error e =>
            .ok_json false (some (String.append "verification error: " e))

/-! ## Key lifecycle (`main.rs` and `keys.rs`)

Groth16 setup, key (de)serialisation and the prepared-verifying-key
computation are external; the file system is a two-slot record. -/

/-- Modelled from the spec: `PointInMapCircuit` is not among the provided
sources (only its construction sites in `main.rs`, `keys.rs` and
`api/prove.rs` are); per the spec §4.4 it carries the private point, the
polygon buffer, the effective vertex count, the claimed in-map flag, the
public hash array, and the Poseidon configuration. -/
structure PointInMapCircuit (Cfg : Type) where
  point : Point2DDec
  polygon : Fin 6 → Point2DDec
  num_vertices : ℕ
  flag : Bool
  pub_hashes : Fin 1024 → F
  cfg : Cfg

/-- The all-zero dummy circuit instance built by `generate_point_in_map_keys`
and `load_or_gen_keys`: zero point, zero polygon, `n = 0`, flag `false`,
all-zero hash array. -/
def dummy_circuit {Cfg : Type} (cfg : Cfg) : PointInMapCircuit Cfg :=
  { point := point_zero
    polygon := fun _ => point_zero
    num_vertices := 0
    flag := false
    pub_hashes := fun _ => 0
    cfg := cfg }

/-- The on-disk state of the two key files under `./params`. -/
structure DiskState (B : Type) where
  pk_file : Option B
  vk_file : Option B
deriving DecidableEq

/-- `read_keys_from_disk` (`keys.rs`): `none` unless both files exist; then
read and deserialise both, preparing the verifying key — any failure yields
`none`. -/
def read_keys_from_disk {B PK VK PVK : Type} (disk : DiskState B)
    (deserialize_pk : B → Option PK) (deserialize_vk : B → Option VK)
    (prepare_vk : VK → PVK) : Option (PK × PVK) :=
  if disk.pk_file.isSome && disk.vk_file.isSome then
    match disk.pk_file, disk.vk_file with
    | some pk_bytes, some vk_bytes =>
      match deserialize_pk pk_bytes, deserialize_vk vk_bytes with
      | some pk, some vk => some (pk, prepare_vk vk)
      | _, _ => none
    | _, _ => none
  else none

/-- `write_keys_to_disk` (`keys.rs`): serialise both keys into the two
files. -/
def write_keys_to_disk {B PK VK : Type} (serialize_pk : PK → B)
    (serialize_vk : VK → B) (pk : PK) (vk : VK) : DiskState B :=
  { pk_file := some (serialize_pk pk), vk_file := some (serialize_vk vk) }

/-- `load_or_gen_keys` (`keys.rs`): return the disk keys when
`read_keys_from_disk` succeeds (leaving the disk untouched); otherwise run
the circuit-specific setup on the dummy circuit with the seed-0 PRNG, write
both keys to disk, and prepare the verifying key.  The second component is
the resulting disk state. -/
def load_or_gen_keys {B PK VK PVK Cfg Rng : Type} (disk : DiskState B)
    (deserialize_pk : B → Option PK) (deserialize_vk : B → Option VK)
    (serialize_pk : PK → B) (serialize_vk : VK → B) (prepare_vk : VK → PVK)
    (setup : PointInMapCircuit Cfg → Rng → PK × VK) (rng_seed0 : Rng)
    (cfg : Cfg) : (PK × PVK) × DiskState B :=
  match read_keys_from_disk disk deserialize_pk deserialize_vk prepare_vk with
  | some keys => (keys, disk)
  | none =>
    let circuit := dummy_circuit cfg
    let pv := setup circuit rng_seed0
    ((pv.1, prepare_vk pv.2),
      write_keys_to_disk serialize_pk serialize_vk pv.1 pv.2)

/-- `generate_point_in_map_keys` (`main.rs`): run the circuit-specific setup
on the all-zero dummy circuit with the seed-0 PRNG and prepare the verifying
key; no file is read or written. -/
def generate_point_in_map_keys {PK VK PVK Cfg Rng : Type}
    (setup : PointInMapCircuit Cfg → Rng → PK × VK) (prepare_vk : VK → PVK)
    (rng_seed0 : Rng) (cfg : Cfg) : PK × PVK :=
  let circuit := dummy_circuit cfg
  let pv := setup circuit rng_seed0
  (pv.1, prepare_vk pv.2)

/-- The key acquisition performed by `main` (`main.rs`): it invokes
`generate_point_in_map_keys` unconditionally; the disk state is taken as an
argument only to express that it is ignored (`main` never calls
`load_or_gen_keys`). -/
def main_startup_keys {B PK VK PVK Cfg Rng : Type} (_disk : DiskState B)
    (setup : PointInMapCircuit Cfg → Rng → PK × VK) (prepare_vk : VK → PVK)
    (rng_seed0 : Rng) (cfg : Cfg) : PK × PVK :=
  generate_point_in_map_keys setup prepare_vk rng_seed0 cfg

/-! ## Concrete instances used in witnesses and counterexamples -/

/-- A nonnegative decimal with a small natural magnitude. -/
def dec_of_nat (n : ℕ) : Dec := { val := (n : F), neg := false }

/-- A small counter-clockwise triangle in slots 0..2: `(0,0)`, `(4,0)`,
`(0,4)`. -/
def tri_example : Fin 6 → Point2DDec := fun i =>
  if i = 0 then { x := dec_of_nat 0, y := dec_of_nat 0 }
  else if i = 1 then { x := dec_of_nat 4, y := dec_of_nat 0 }
  else if i = 2 then { x := dec_of_nat 0, y := dec_of_nat 4 }
  else point_zero

/-- The query point `(1,1)`, strictly inside `tri_example`. -/
def query_example : Point2DDec := { x := dec_of_nat 1, y := dec_of_nat 1 }

/-- The all-zero polygon buffer. -/
def zero_poly : Fin 6 → Point2DDec := fun _ => point_zero

/-- A concrete sponge: positional accumulation in base `2^10`.  On the
absorption sequences of `hash_polygon` (25 elements, all of value below
`2^10` in the inputs we evaluate) it is injective. -/
def sponge_linear : SpongeModel F :=
  { init := 0, absorb := fun s x => 1024 * s + x, squeeze := id }

/-! ## General-purpose lemmas -/

theorem foldl_congr_on {α β : Type} {f g : β → α → β} :
    ∀ l : List α, (∀ b : β, ∀ a ∈ l, f b a = g b a) →
      ∀ b : β, l.foldl f b = l.foldl g b
  | [], _, _ => rfl
  | a :: l, h, b => by
    simp only [List.foldl_cons]
    rw [h b a (List.mem_cons_self a l)]
    exact foldl_congr_on l (fun b' a' ha' => h b' a' (List.mem_cons_of_mem _ ha')) _

theorem pget_eq_of_lt (poly : Fin 6 → Point2DDec) {i : ℕ} (h : i < 6) :
    pget poly i = poly ⟨i, h⟩ := by
  unfold pget
  congr 1
  exact Fin.ext (Nat.mod_eq_of_lt h)

theorem u128_from_field_element_lt (f : F) :
    u128_from_field_element f < 2 ^ 128 :=
  Nat.mod_lt _ (by norm_num)

theorem signed_add_u128_snd_lt (aNeg : Bool) (aMag : ℕ) (bNeg : Bool)
    (bMag : ℕ) (ha : aMag < 2 ^ 128) (hb : bMag < 2 ^ 128) :
    (signed_add_u128 aNeg aMag bNeg bMag).2 < 2 ^ 128 := by
  unfold signed_add_u128
  split
  · simp only
    omega
  · split <;> simp only <;> omega

theorem natCast_f_eq_zero_iff {m : ℕ} (h : m < 2 ^ 128) :
    ((m : ℕ) : F) = 0 ↔ m = 0 := by
  constructor
  · intro h0
    have hv := congrArg ZMod.val h0
    rw [ZMod.val_natCast_of_lt (lt_trans h (by norm_num)), ZMod.val_zero] at hv
    exact hv
  · intro h0
    simp [h0]

/-- The shape of every `Dec.add` result: the magnitude is the field embedding
of a `u128`, and a zero magnitude carries sign `false`. -/
theorem dec_add_shape (a b : Dec) :
    ∃ m : ℕ, m < 2 ^ 128 ∧ (a.add b).val = ((m : ℕ) : F) ∧
      ((a.add b).val = 0 → (a.add b).neg = false) := by
  refine ⟨(signed_add_u128 a.neg (u128_from_field_element a.val) b.neg
    (u128_from_field_element b.val)).2, ?_, rfl, ?_⟩
  · exact signed_add_u128_snd_lt _ _ _ _ (u128_from_field_element_lt _)
      (u128_from_field_element_lt _)
  · intro h0
    have hm := (natCast_f_eq_zero_iff (signed_add_u128_snd_lt _ _ _ _
      (u128_from_field_element_lt a.val) (u128_from_field_element_lt b.val))).mp h0
    show (if _ = 0 then false else _) = false
    simp [hm]

/-! ## Claim theorems -/

/-- Claim C5: the native `is_point_in_polygon` returns `true` exactly when
the vertex count is at least three and no edge's signed cross product
`d_i = (V_{(i+1) mod n}.x - V_i.x)*(q.y - V_i.y) - (V_{(i+1) mod n}.y -
V_i.y)*(q.x - V_i.x)` (computed with `sub` and `mul_unscaled`) is strictly
negative under `comp_dec_less_than`; in particular `d_i = 0` counts toward
inside and `n < 3` always yields `false`. -/
theorem native_pip_characterisation (pt : Point2DDec)
    (poly : Fin 6 → Point2DDec) (n : ℕ) (h : n ≤ 6) :
    is_point_in_polygon pt poly n = true ↔
      (3 ≤ n ∧ ∀ i, i < n →
        comp_dec_less_than
          (cross_d pt (pget poly i) (pget poly ((i + 1) % n))) dec_zero
          = false) := by
  by_cases hn : n < 3
  · simp only [is_point_in_polygon, if_pos hn]
    constructor
    · intro hfalse
      exact absurd hfalse (by simp)
    · intro hand
      omega
  · simp only [is_point_in_polygon, if_neg hn, beq_iff_eq,
      List.countP_eq_zero, List.mem_range, Bool.not_eq_true]
    constructor
    · intro hall
      exact ⟨by omega, hall⟩
    · intro hand
      exact hand.2

/-- Witness for C5: the characterisation evaluated on the concrete triangle
and query point. -/
theorem native_pip_characterisation_witness :
    is_point_in_polygon query_example tri_example 3 = true ↔
      (3 ≤ 3 ∧ ∀ i, i < 3 →
        comp_dec_less_than
          (cross_d query_example (pget tri_example i)
            (pget tri_example ((i + 1) % 3))) dec_zero = false) :=
  native_pip_characterisation query_example tri_example 3 (by norm_num)

/-- Claim C8: all three native `Dec` operations canonicalise a zero
magnitude to sign `false`; `add` and `sub` always return the field embedding
of a `u128` magnitude, and same-sign magnitudes are summed with saturation
at `2^128 - 1`. -/
theorem dec_ops_canonical (a b : Dec) :
    ((a.add b).val = 0 → (a.add b).neg = false) ∧
    ((a.sub b).val = 0 → (a.sub b).neg = false) ∧
    ((a.mul_unscaled b).val = 0 → (a.mul_unscaled b).neg = false) ∧
    (∃ m : ℕ, m < 2 ^ 128 ∧ (a.add b).val = ((m : ℕ) : F)) ∧
    (∃ m : ℕ, m < 2 ^ 128 ∧ (a.sub b).val = ((m : ℕ) : F)) ∧
    (a.neg = b.neg →
      (a.add b).val =
        ((min (u128_from_field_element a.val + u128_from_field_element b.val)
          (2 ^ 128 - 1) : ℕ) : F)) := by
  obtain ⟨m1, hm1, hv1, hc1⟩ := dec_add_shape a b
  obtain ⟨m2, hm2, hv2, hc2⟩ := dec_add_shape a (dec_negate b)
  refine ⟨hc1, hc2, ?_, ⟨m1, hm1, hv1⟩, ⟨m2, hm2, hv2⟩, ?_⟩
  · intro h0
    show (if _ = 0 then false else _) = false
    simp only [Dec.mul_unscaled] at h0
    simp [h0]
  · intro hsame
    show ((signed_add_u128 a.neg _ b.neg _).2 : F) = _
    unfold signed_add_u128
    rw [hsame]
    simp

/-- Witness for C8: the conjunction instantiated at two concrete decimals. -/
theorem dec_ops_canonical_witness :
    (((dec_of_nat 3).add { val := (3 : F), neg := true }).val = 0 →
      ((dec_of_nat 3).add { val := (3 : F), neg := true }).neg = false) ∧
    (((dec_of_nat 3).sub { val := (3 : F), neg := true }).val = 0 →
      ((dec_of_nat 3).sub { val := (3 : F), neg := true }).neg = false) ∧
    (((dec_of_nat 3).mul_unscaled { val := (3 : F), neg := true }).val = 0 →
      ((dec_of_nat 3).mul_unscaled { val := (3 : F), neg := true }).neg
        = false) ∧
    (∃ m : ℕ, m < 2 ^ 128 ∧
      ((dec_of_nat 3).add { val := (3 : F), neg := true }).val
        = ((m : ℕ) : F)) ∧
    (∃ m : ℕ, m < 2 ^ 128 ∧
      ((dec_of_nat 3).sub { val := (3 : F), neg := true }).val
        = ((m : ℕ) : F)) ∧
    ((dec_of_nat 3).neg = ({ val := (3 : F), neg := true } : Dec).neg →
      ((dec_of_nat 3).add { val := (3 : F), neg := true }).val =
        ((min (u128_from_field_element (dec_of_nat 3).val +
          u128_from_field_element (({ val := (3 : F), neg := true } : Dec)).val)
          (2 ^ 128 - 1) : ℕ) : F)) :=
  dec_ops_canonical (dec_of_nat 3) { val := (3 : F), neg := true }

/-- Claim C9: for a decimal whose magnitude fits in 128 bits, adding its
negation (sign flipped unless the magnitude is zero) yields the canonical
zero, and `sub` is by definition `add` of the negated right operand. -/
theorem dec_add_negate_cancel (a b : Dec) (_hmag : a.val.val < 2 ^ 128) :
    a.add (dec_negate a) = dec_zero ∧ a.sub b = a.add (dec_negate b) := by
  refine ⟨?_, rfl⟩
  by_cases h0 : a.val = 0 <;> cases hn : a.neg <;>
    simp [Dec.add, dec_negate, signed_add_u128, u128_from_field_element,
      dec_zero, h0, hn, ZMod.val_zero]

/-- Witness for C9 at a concrete in-range decimal. -/
theorem dec_add_negate_cancel_witness :
    ({ val := (5 : F), neg := true } : Dec).add
        (dec_negate { val := (5 : F), neg := true }) = dec_zero ∧
    ({ val := (5 : F), neg := true } : Dec).sub (dec_of_nat 2) =
      ({ val := (5 : F), neg := true } : Dec).add (dec_negate (dec_of_nat 2)) :=
  dec_add_negate_cancel { val := (5 : F), neg := true } (dec_of_nat 2)
    (by decide)

/-- Claim C1 (code bug): on the 3-vertex counter-clockwise triangle
`(0,0), (4,0), (0,4)` with the interior query point `(1,1)` and `n = 3`
supplied as a field element, the native predicate answers `true` while the
in-circuit gadget's value is `false` — its vertex-count gate is the strict
comparison `n > 3` (`is_cmp_unchecked(3, Greater, false)`), not `n ≥ 3`, so
native and gadget differ. -/
theorem pip_native_gadget_diverge :
    is_point_in_polygon query_example tri_example 3 = true ∧
    is_point_in_polygon_gadget_val query_example tri_example ((3 : ℕ) : F)
      = false := by
  constructor <;> decide

/-- Claim C4 (code bug): with both key files present and deserialising
successfully (`read_keys_from_disk` succeeds and would yield the disk keys
`(7, 9)`), the startup path of `main` still returns the freshly generated
setup keys `(5, 6)` — `main` calls `generate_point_in_map_keys`
unconditionally and never consults the disk, whereas the unused
`load_or_gen_keys` helper of `keys.rs` would have returned the disk keys and
left the disk untouched. -/
theorem startup_ignores_disk_keys :
    @read_keys_from_disk ℕ ℕ ℕ ℕ
      { pk_file := some 7, vk_file := some 9 } some some id = some (7, 9) ∧
    @main_startup_keys ℕ ℕ ℕ ℕ Unit Unit
      { pk_file := some 7, vk_file := some 9 }
      (fun _ _ => ((5 : ℕ), (6 : ℕ))) id () () = (5, 6) ∧
    @load_or_gen_keys ℕ ℕ ℕ ℕ Unit Unit
      { pk_file := some 7, vk_file := some 9 } some some id id id
      (fun _ _ => ((5 : ℕ), (6 : ℕ))) () () =
      ((7, 9), { pk_file := some 7, vk_file := some 9 }) :=
  ⟨rfl, rfl, rfl⟩

/-- Two polygon buffers agreeing on all slots active under `n` produce the
same absorption sequence, hence the same commitment, for every sponge. -/
theorem hash_polygon_congr_below {S : Type} (sp : SpongeModel S)
    (poly1 poly2 : Fin 6 → Point2DDec) (n : ℕ)
    (hagree : ∀ i : Fin 6, (i : ℕ) < n → poly1 i = poly2 i) :
    hash_polygon sp poly1 n = hash_polygon sp poly2 n := by
  simp only [hash_polygon]
  refine congrArg sp.squeeze ?_
  refine foldl_congr_on _ ?_ _
  intro st i hi
  have hi6 : i < 6 := List.mem_range.mp hi
  by_cases hin : i < n
  · rw [if_pos hin, if_pos hin, pget_eq_of_lt poly1 hi6,
      pget_eq_of_lt poly2 hi6, hagree ⟨i, hi6⟩ hin]
  · rw [if_neg hin, if_neg hin]

/-- Claim C2: for every sponge, polygon buffer and effective count
`n ≤ MAX_V`, the native commitment `hash_polygon` equals the value of the
in-circuit `hash_polygon_gadget` on variables allocated from the same inputs
(with `n` supplied as a field element). -/
theorem hash_native_eq_gadget {S : Type} (sp : SpongeModel S)
    (poly : Fin 6 → Point2DDec) (n : ℕ) (h : n ≤ 6) :
    hash_polygon sp poly n = hash_polygon_gadget_val sp poly ((n : ℕ) : F) := by
  simp only [hash_polygon, hash_polygon_gadget_val]
  refine congrArg sp.squeeze ?_
  refine foldl_congr_on _ ?_ _
  intro st i hi
  have hi6 : i < 6 := List.mem_range.mp hi
  have hvi : (((i : ℕ) : F)).val = i :=
    ZMod.val_natCast_of_lt (lt_trans hi6 (by norm_num))
  have hvn : (((n : ℕ) : F)).val = n :=
    ZMod.val_natCast_of_lt (lt_of_le_of_lt h (by norm_num))
  by_cases hin : i < n
  · simp [hin, hvi, hvn, absorb_slot]
  · simp [hin, hvi, hvn]

/-- Witness for C2: natively and in-circuit committed all-zero polygon with
four effective vertices under the concrete sponge. -/
theorem hash_native_eq_gadget_witness :
    hash_polygon sponge_linear zero_poly 4 =
      hash_polygon_gadget_val sponge_linear zero_poly ((4 : ℕ) : F) :=
  hash_native_eq_gadget sponge_linear zero_poly 4 (by norm_num)

/-- Claim C6: commitments ignore slots at index `≥ n` — two buffers agreeing
on the active slots hash identically, and a buffer hashes the same as its
zero-padding truncated at `n`, for every sponge. -/
theorem hash_polygon_zero_padding_equiv {S : Type} (sp : SpongeModel S)
    (n : ℕ) (_h : n ≤ 6) (poly1 poly2 : Fin 6 → Point2DDec)
    (hagree : ∀ i : Fin 6, (i : ℕ) < n → poly1 i = poly2 i) :
    hash_polygon sp poly1 n = hash_polygon sp poly2 n ∧
    hash_polygon sp poly1 n =
      hash_polygon sp (fun i => if (i : ℕ) < n then poly1 i else point_zero)
        n := by
  refine ⟨hash_polygon_congr_below sp poly1 poly2 n hagree,
    hash_polygon_congr_below sp poly1 _ n ?_⟩
  intro i hi
  rw [if_pos hi]

/-- A buffer that is zero on the two active slots but junk beyond them. -/
def poly_junk_pad : Fin 6 → Point2DDec := fun i =>
  if (i : ℕ) < 2 then point_zero
  else { x := dec_of_nat 9, y := dec_of_nat 9 }

/-- Witness for C6: the all-zero buffer and a buffer with junk in the
inactive slots commit identically at `n = 2`. -/
theorem hash_polygon_zero_padding_equiv_witness :
    hash_polygon sponge_linear zero_poly 2 =
      hash_polygon sponge_linear poly_junk_pad 2 ∧
    hash_polygon sponge_linear zero_poly 2 =
      hash_polygon sponge_linear
        (fun i => if (i : ℕ) < 2 then zero_poly i else point_zero) 2 :=
  hash_polygon_zero_padding_equiv sponge_linear 2 (by norm_num) zero_poly
    poly_junk_pad (fun i hi => by simp [zero_poly, poly_junk_pad, hi])

/-- Counterexample to C7 as stated: the commitment absorbs the effective
length first, so the same five (here all-zero) vertices hashed with length 5
and hashed with a sixth zero slot counted in the length (length 6) give
different commitments — exhibited on a concrete sponge. -/
theorem hash_five_vs_six_differ :
    hash_polygon sponge_linear zero_poly 5 ≠
      hash_polygon sponge_linear zero_poly 6 := by
  decide

/-- Claim C7 as amended: adding a zero slot *without* counting it in the
effective length leaves the commitment unchanged — the hash with effective
length 5 of any buffer equals the hash with effective length 5 of the same
buffer with every slot beyond the fifth replaced by the canonical zero
point; the two absorb identical sequences.  (As stated, with the zero slot
counted so the length becomes 6, the claim is false: see the
counterexample.) -/
theorem hash_five_plus_zero_slot_eq {S : Type} (sp : SpongeModel S)
    (poly : Fin 6 → Point2DDec) :
    hash_polygon sp poly 5 =
      hash_polygon sp (fun i => if (i : ℕ) < 5 then poly i else point_zero)
        5 :=
  hash_polygon_congr_below sp poly _ 5 (fun i hi => by rw [if_pos hi])

/-- The stand-in per-cell commitment used to evaluate the `/prove` flag
computation at a concrete input. -/
def bh_len (s : String) : F := ((s.length : ℕ) : F)

/-- A 1025-entry map list whose only matching cell sits past `MAX_H`. -/
def big_map : List String := List.replicate 1024 "a" ++ ["bb"]

/-- The final flag of the `prove` handler, projected from
`prove_flag_publics`: the claimed inside-Boolean conjoined with `any` over
the *entire* hash list. -/
theorem prove_flag_publics_fst {C : Type} (parse_cell : String → Option C)
    (boundary_hash : C → F) (cell_hash : F) (inside_poly : Bool)
    (h3_map : List String) :
    (prove_flag_publics parse_cell boundary_hash cell_hash inside_poly
      h3_map).1 =
      (inside_poly && (hash_map_cells parse_cell boundary_hash h3_map).any
        (fun h => h == cell_hash)) := rfl

/-- Claim C3 (code bug): on a 1025-entry `h3_map` whose only matching entry
is the 1025th, the handler's `final_flag` is `true` — `hash_match` is `any`
over the *full* hash list — while the same request truncated to its first
`MAX_H = 1024` entries yields `final_flag = false`; entries beyond `MAX_H`
therefore do contribute to the outcome, contradicting the claim (and leaving
the public flag inconsistent with the truncated public hash array the
circuit sees). -/
theorem prove_flag_sees_beyond_max_h :
    big_map.length = 1024 + 1 ∧
    (prove_flag_publics some bh_len (2 : F) true big_map).1 = true ∧
    (prove_flag_publics some bh_len (2 : F) true (big_map.take 1024)).1
      = false := by
  have ha : (bh_len "a" == (2 : F)) = false := by decide
  have hb : (bh_len "bb" == (2 : F)) = true := by decide
  have htake : big_map.take 1024 = List.replicate 1024 "a" :=
    List.take_left' (List.length_replicate 1024 "a")
  have hlen : big_map.length = 1024 + 1 := by
    have h1 : big_map.length =
        (List.replicate 1024 "a").length + List.length ["bb"] :=
      List.length_append _ _
    rw [h1, List.length_replicate]
    rfl
  have hmap1 : hash_map_cells some bh_len big_map =
      List.replicate 1024 (bh_len "a") ++ [bh_len "bb"] := by
    show ((List.replicate 1024 "a" ++ ["bb"]).filterMap some).map bh_len = _
    rw [List.filterMap_some, List.map_append, List.map_replicate]
    rfl
  have hmap2 : hash_map_cells some bh_len (big_map.take 1024) =
      List.replicate 1024 (bh_len "a") := by
    rw [htake]
    show ((List.replicate 1024 "a").filterMap some).map bh_len = _
    rw [List.filterMap_some, List.map_replicate]
  refine ⟨hlen, ?_, ?_⟩
  · rw [prove_flag_publics_fst, Bool.true_and, hmap1, List.any_append,
      List.any_replicate, List.any_cons, List.any_nil, ha, hb]
    rfl
  · rw [prove_flag_publics_fst, Bool.true_and, hmap2, List.any_replicate, ha]
    rfl

/-- Claim C10: when the three proof components and every public-input entry
decode successfully, the `verify` handler forwards the decoded public-input
vector — of any length — to the Groth16 verifier, returns HTTP 200 with the
verifier's Boolean on success and HTTP 200 with `ok = false` plus an error
message on a verifier error (a length mismatch included), and never returns
HTTP 400. -/
theorem verify_forwards_any_length {G1 G2 : Type}
    (dec_g1 : String → Except String G1) (dec_g2 : String → Except String G2)
    (dec_fr : String → Except String F)
    (verifier : List F → G1 × G2 × G1 → Except String Bool) (req : VerifyReq)
    (pa : G1) (pb : G2) (pc : G1) (pis : List F)
    (ha : dec_g1 req.proof.a = .ok pa) (hb : dec_g2 req.proof.b = .ok pb)
    (hc : dec_g1 req.proof.c = .ok pc)
    (hp : decode_all dec_fr req.public_inputs = .ok pis) :
    verify_handler dec_g1 dec_g2 dec_fr verifier req =
      (match verifier pis (pa, pb, pc) with
       | .ok b => HttpOut.ok_json b none
       | .error e =>
         HttpOut.ok_json false (some (String.append "verification error: " e)))
    ∧ ∀ msg, verify_handler dec_g1 dec_g2 dec_fr verifier req ≠
        HttpOut.bad_request msg := by
  have hmain : verify_handler dec_g1 dec_g2 dec_fr verifier req =
      (match verifier pis (pa, pb, pc) with
       | .ok b => HttpOut.ok_json b none
       | .error e =>
         HttpOut.ok_json false
           (some (String.append "verification error: " e))) := by
    unfold verify_handler
    rw [ha, hb, hc, hp]
  refine ⟨hmain, fun msg => ?_⟩
  rw [hmain]
  cases verifier pis (pa, pb, pc) <;> simp

/-- Witness for C10: a request whose public-input vector has 3 entries —
not the circuit's `1 + 1024` — still reaches the verifier and a verifier
error comes back as a 200 with `ok = false`. -/
theorem verify_forwards_any_length_witness :
    @verify_handler Unit Unit (fun _ => Except.ok ())
      (fun _ => Except.ok ()) (fun _ => Except.ok (0 : F))
      (fun _ _ => Except.error "length mismatch")
      { proof := { a := "a", b := "b", c := "c" },
        public_inputs := ["x", "y", "z"] } =
      HttpOut.ok_json false
        (some (String.append "verification error: " "length mismatch")) ∧
    ∀ msg, @verify_handler Unit Unit (fun _ => Except.ok ())
      (fun _ => Except.ok ()) (fun _ => Except.ok (0 : F))
      (fun _ _ => Except.error "length mismatch")
      { proof := { a := "a", b := "b", c := "c" },
        public_inputs := ["x", "y", "z"] } ≠ HttpOut.bad_request msg :=
  verify_forwards_any_length (fun _ => Except.ok ()) (fun _ => Except.ok ())
    (fun _ => Except.ok (0 : F)) (fun _ _ => Except.error "length mismatch")
    { proof := { a := "a", b := "b", c := "c" },
      public_inputs := ["x", "y", "z"] }
    () () () [0, 0, 0] rfl rfl rfl rfl

end ZkShroud
